import Mathlib

/-!
Verification of the `azure-iotcentral-device-client` Python package
(`src/azure/iotcentral/device/client/__init__.py`, version 0.2.0-beta.4)
against its natural-language specification.

The development is a shallow embedding: each relevant Python method is
translated into an executable Lean function over explicit state, with the
external collaborators (provisioning service, hub transport) modelled as
oracles supplying the outcome of each external call, and side effects
(logging, transport sends, handler invocations) reified as event traces.

The external `hmac`/`hashlib`/`base64` library functions invoked by
`_computeDerivedSymmetricKey` are modelled by executable reference
implementations of HMAC-SHA256 (RFC 2104 / FIPS 180-4) and of Python's
`base64.b64decode`/`b64encode` (which discard non-alphabet characters and
require well-formed padding), so that the derivation can be evaluated on
concrete inputs.
-/

/-! ## SHA-256 (model of `hashlib.sha256`), over byte lists (`Nat` < 256) -/

/-- Word size modulus for 32-bit arithmetic. -/
def w32 : Nat := 4294967296

/-- Rotate a 32-bit word right by `n`. -/
def rotr32 (n x : Nat) : Nat := ((x >>> n) ||| (x <<< (32 - n))) % w32

/-- SHA-256 `Ch` function; `~x` on 32 bits is `x ^^^ 0xFFFFFFFF`. -/
def chF (x y z : Nat) : Nat := (x &&& y) ^^^ ((x ^^^ 4294967295) &&& z)

/-- SHA-256 `Maj` function. -/
def majF (x y z : Nat) : Nat := (x &&& y) ^^^ (x &&& z) ^^^ (y &&& z)

/-- SHA-256 big sigma 0. -/
def bsig0 (x : Nat) : Nat := (rotr32 2 x) ^^^ (rotr32 13 x) ^^^ (rotr32 22 x)

/-- SHA-256 big sigma 1. -/
def bsig1 (x : Nat) : Nat := (rotr32 6 x) ^^^ (rotr32 11 x) ^^^ (rotr32 25 x)

/-- SHA-256 small sigma 0. -/
def ssig0 (x : Nat) : Nat := (rotr32 7 x) ^^^ (rotr32 18 x) ^^^ (x >>> 3)

/-- SHA-256 small sigma 1. -/
def ssig1 (x : Nat) : Nat := (rotr32 17 x) ^^^ (rotr32 19 x) ^^^ (x >>> 10)

/-- SHA-256 round constants. -/
def K256 : List Nat :=
  [1116352408, 1899447441, 3049323471, 3921009573, 961987163, 1508970993,
   2453635748, 2870763221, 3624381080, 310598401, 607225278, 1426881987,
   1925078388, 2162078206, 2614888103, 3248222580, 3835390401, 4022224774,
   264347078, 604807628, 770255983, 1249150122, 1555081692, 1996064986,
   2554220882, 2821834349, 2952996808, 3210313671, 3336571891, 3584528711,
   113926993, 338241895, 666307205, 773529912, 1294757372, 1396182291,
   1695183700, 1986661051, 2177026350, 2456956037, 2730485921, 2820302411,
   3259730800, 3345764771, 3516065817, 3600352804, 4094571909, 275423344,
   430227734, 506948616, 659060556, 883997877, 958139571, 1322822218,
   1537002063, 1747873779, 1955562222, 2024104815, 2227730452, 2361852424,
   2428436474, 2756734187, 3204031479, 3329325298]

/-- SHA-256 initial hash state. -/
def H0 : List Nat :=
  [1779033703, 3144134277, 1013904242, 2773480762,
   1359893119, 2600822924, 528734635, 1541459225]

/-- Big-endian byte serialization of `v` into `k` bytes. -/
def bytesBE : Nat → Nat → List Nat
  | 0, _ => []
  | k+1, v => bytesBE k (v / 256) ++ [v % 256]

/-- SHA-256 padding: `0x80`, zeros to 56 mod 64, then the 64-bit bit length. -/
def sha256pad (msg : List Nat) : List Nat :=
  let L := msg.length
  msg ++ [128] ++ List.replicate ((119 - L % 64) % 64) 0 ++ bytesBE 8 (8 * L)

/-- Group bytes into big-endian 32-bit words. -/
def toWords : List Nat → List Nat
  | b0 :: b1 :: b2 :: b3 :: rest => (((b0 * 256 + b1) * 256 + b2) * 256 + b3) :: toWords rest
  | _ => []

/-- Append the next word of the SHA-256 message schedule. -/
def stepW (w : List Nat) : List Nat :=
  let n := w.length
  w ++ [(ssig1 (w.getD (n-2) 0) + w.getD (n-7) 0 + ssig0 (w.getD (n-15) 0) + w.getD (n-16) 0) % w32]

/-- Iterate `stepW`; `extendW 48` grows the 16 block words to the full 64. -/
def extendW : Nat → List Nat → List Nat
  | 0, w => w
  | k+1, w => extendW k (stepW w)

/-- One SHA-256 compression round on the 8-word working state. -/
def sha256round (st : List Nat) (kw : Nat × Nat) : List Nat :=
  match st with
  | [a, b, c, d, e, f, g, h] =>
    let t1 := (h + bsig1 e + chF e f g + kw.1 + kw.2) % w32
    let t2 := (bsig0 a + majF a b c) % w32
    [(t1 + t2) % w32, a, b, c, (d + t1) % w32, e, f, g]
  | _ => st

/-- Compress one 64-byte block into the hash state. -/
def compressBlock (h : List Nat) (block : List Nat) : List Nat :=
  let w := extendW 48 (toWords block)
  let st := (List.zip K256 w).foldl sha256round h
  List.zipWith (fun a b => (a + b) % w32) h st

/-- Fold the compression function over consecutive 64-byte blocks. -/
def foldBlocks : Nat → List Nat → List Nat → List Nat
  | 0, h, _ => h
  | _, h, [] => h
  | fuel+1, h, bytes => foldBlocks fuel (compressBlock h (bytes.take 64)) (bytes.drop 64)

/-- SHA-256 digest (32 bytes) of a byte-list message. -/
def sha256 (msg : List Nat) : List Nat :=
  let padded := sha256pad msg
  ((foldBlocks (padded.length / 64) H0 padded).map (bytesBE 4)).flatten

/-- HMAC-SHA256 (RFC 2104), the behaviour of Python's
`hmac.new(key, msg, digestmod=hashlib.sha256).digest()`. -/
def hmacSha256 (key msg : List Nat) : List Nat :=
  let k0 := if 64 < key.length then sha256 key else key
  let kp := k0 ++ List.replicate (64 - k0.length) 0
  let ip := kp.map (fun b => b ^^^ 0x36)
  let op := kp.map (fun b => b ^^^ 0x5C)
  sha256 (op ++ sha256 (ip ++ msg))

/-! ## Base64 (model of Python `base64.b64encode` / `b64decode`) -/

/-- The base64 alphabet in index order. -/
def b64Alphabet : List Char :=
  "ABCDEFGHIJKLMNOPQRSTUVWXYZabcdefghijklmnopqrstuvwxyz0123456789+/".data

/-- Index of a character in the base64 alphabet, if it belongs to it. -/
def b64CharVal (c : Char) : Option Nat :=
  let i := b64Alphabet.indexOf c
  if i < 64 then some i else none

/-- Character encoding a 6-bit group. -/
def b64EncChar (n : Nat) : Char := b64Alphabet.getD n 'A'

/-- Base64-encode a byte list: 3-byte groups become 4 characters, with
`'='` padding on a trailing group of 1 or 2 bytes. -/
def b64encodeCore : List Nat → List Char
  | [] => []
  | [b1] => [b64EncChar (b1 / 4), b64EncChar (b1 % 4 * 16), '=', '=']
  | [b1, b2] => [b64EncChar (b1 / 4), b64EncChar (b1 % 4 * 16 + b2 / 16), b64EncChar (b2 % 16 * 4), '=']
  | b1 :: b2 :: b3 :: rest =>
    b64EncChar (b1 / 4) :: b64EncChar (b1 % 4 * 16 + b2 / 16) ::
    b64EncChar (b2 % 16 * 4 + b3 / 64) :: b64EncChar (b3 % 64) :: b64encodeCore rest

/-- Python `base64.b64encode(..).decode('utf-8')` as a string. -/
def b64encode (bs : List Nat) : String := String.mk (b64encodeCore bs)

/-- Characters Python's decoder keeps: alphabet characters and `'='`. -/
def b64KeepChar (c : Char) : Bool := (b64CharVal c).isSome || c == '='

/-- Decode a list of kept characters quad by quad; `none` models the
`binascii.Error` Python raises on incorrect padding. -/
def b64decodeQuads : List Char → Option (List Nat)
  | [] => some []
  | c1 :: c2 :: c3 :: c4 :: rest =>
    match b64CharVal c1, b64CharVal c2 with
    | some v1, some v2 =>
      if c3 = '=' then
        if c4 = '=' ∧ rest = [] then some [v1 * 4 + v2 / 16] else none
      else
        match b64CharVal c3 with
        | some v3 =>
          if c4 = '=' then
            if rest = [] then some [v1 * 4 + v2 / 16, v2 % 16 * 16 + v3 / 4] else none
          else
            match b64CharVal c4 with
            | some v4 =>
              (b64decodeQuads rest).map
                (fun t => (v1 * 4 + v2 / 16) :: (v2 % 16 * 16 + v3 / 4) :: (v3 % 4 * 64 + v4) :: t)
            | none => none
        | none => none
    | _, _ => none
  | _ => none

/-- Python `base64.b64decode`: discard characters outside the alphabet,
then decode; `none` models the raised `binascii.Error`. -/
def b64decode (s : String) : Option (List Nat) :=
  b64decodeQuads (s.data.filter b64KeepChar)

/-! ## UTF-8 encoding (model of Python `str.encode('utf8')`) -/

/-- UTF-8 bytes of one character. -/
def utf8EncodeCharBytes (c : Char) : List Nat :=
  let v := c.toNat
  if v < 128 then [v]
  else if v < 2048 then [192 + v / 64, 128 + v % 64]
  else if v < 65536 then [224 + v / 4096, 128 + v / 64 % 64, 128 + v % 64]
  else [240 + v / 262144, 128 + v / 4096 % 64, 128 + v / 64 % 64, 128 + v % 64]

/-- UTF-8 bytes of a string. -/
def utf8Encode (s : String) : List Nat := (s.data.map utf8EncodeCharBytes).flatten

/-! ## JSON-like values (Python dicts/values carried by patches and payloads) -/

/-- Values exchanged with the transport: the subset of Python values the
client manipulates (None, bool, int, str, dict). -/
inductive JVal where
  | null
  | jbool (b : Bool)
  | jnum (n : Int)
  | jstr (s : String)
  | jobj (fields : List (String × JVal))

/-- Lookup in a dict represented as an association list (Python dict keys
are unique, and iteration follows insertion order). -/
def jget (fields : List (String × JVal)) (k : String) : Option JVal :=
  (fields.find? (fun p => p.1 == k)).map (fun p => p.2)

/-- Python truthiness (`if ret:`) for the modelled values. -/
def JVal.truthy : JVal → Bool
  | .null => false
  | .jbool b => b
  | .jnum n => n != 0
  | .jstr s => s != ""
  | .jobj fs => !fs.isEmpty

/-- Result of calling a Python function: a value, or a raised exception
carrying a description. -/
inductive PyResult (α : Type) where
  | ok (v : α)
  | exn (e : String)

/-- True when the call returned normally. -/
def PyResult.isOk {α : Type} : PyResult α → Bool
  | .ok _ => true
  | .exn _ => false

/-- Python subscription `v[k]`: `KeyError` on a missing key, `TypeError`
when `v` is not a dict. -/
def subscript : JVal → String → PyResult JVal
  | .jobj fs, k =>
    match jget fs k with
    | some v => .ok v
    | none => .exn "KeyError"
  | _, _ => .exn "TypeError"

/-- Python dict subscription `d[k]` on a top-level patch dict. -/
def dictGet (d : List (String × JVal)) (k : String) : PyResult JVal :=
  match jget d k with
  | some v => .ok v
  | none => .exn "KeyError"

/-! ## ConsoleLogger (lines 89-105 of the source) -/

/-- Value of `IOTCLogLevel.IOTC_LOGGING_DISABLED`. -/
def IOTC_LOGGING_DISABLED : Nat := 1

/-- Value of `IOTCLogLevel.IOTC_LOGGING_API_ONLY`. -/
def IOTC_LOGGING_API_ONLY : Nat := 2

/-- Value of `IOTCLogLevel.IOTC_LOGGING_ALL`. -/
def IOTC_LOGGING_ALL : Nat := 16

/-- The console logger: its only state is the numeric log level. -/
structure ConsoleLogger where
  logLevel : Nat

/-- The lines `info` prints: the message exactly when the level is not
`IOTC_LOGGING_DISABLED`. -/
def ConsoleLogger.info (l : ConsoleLogger) (message : String) : List String :=
  if l.logLevel ≠ IOTC_LOGGING_DISABLED then [message] else []

/-- The lines `debug` prints: the message exactly when the level is
`IOTC_LOGGING_ALL`. -/
def ConsoleLogger.debug (l : ConsoleLogger) (message : String) : List String :=
  if l.logLevel = IOTC_LOGGING_ALL then [message] else []

/-- Model of `setLogLevel`. -/
def ConsoleLogger.setLogLevel (_ : ConsoleLogger) (logLevel : Nat) : ConsoleLogger :=
  { logLevel }

/-! ## Client data model (class `IoTCClient`, lines 108-124) -/

/-- The `IOTCConnectType` constants (source values 1, 2, 3). -/
inductive IOTCConnectType where
  | IOTC_CONNECT_SYMM_KEY
  | IOTC_CONNECT_X509_CERT
  | IOTC_CONNECT_DEVICE_KEY
deriving DecidableEq

/-- The `keyOrCert` constructor argument: a symmetric/device key string,
or the certificate dict with `keyFile`/`certFile`/optional `certPhrase`. -/
inductive KeyOrCert where
  | key (k : String)
  | certInfo (fields : List (String × String))
deriving DecidableEq

/-- Lookup in the certificate dict. -/
def sdictGet (d : List (String × String)) (k : String) : Option String :=
  (d.find? (fun p => p.1 == k)).map (fun p => p.2)

/-- A received command invocation (`azure.iot.device` `MethodRequest`). -/
structure MethodRequest where
  name : String
  requestId : String
  payload : JVal

/-- Registered properties handler: called as `propCb(prop, value)`; it
returns a value (whose truthiness is the success flag) or raises. -/
def PropHandler : Type := String → JVal → PyResult JVal

/-- Registered command handler, called as `cmdCb(method_request, self._cmdAck)`.
Its observable behaviour is the ordered list of `_cmdAck(name, value, requestId)`
calls it performs, followed optionally by a raised exception. -/
structure CmdAckCall where
  name : String
  value : JVal
  requestId : String

/-- Behaviour of the registered command handler. -/
def CmdHandlerSpec : Type := MethodRequest → List CmdAckCall × Option String

/-- Mutable attributes of an `IoTCClient` instance that the verified
methods read or write. The Python `_events` dict with keys
`IOTC_PROPERTIES`/`IOTC_COMMAND` is split into its two possible entries.
`_provisioningClient`/`_deviceClient` are external handles whose calls are
resolved by the connect oracle, so they are not stored; `logLevel` stands
for the owned `ConsoleLogger`. -/
structure IoTCClient where
  deviceId : String
  scopeId : String
  credType : IOTCConnectType
  keyORCert : KeyOrCert
  modelId : Option String
  connected : Bool
  propCb : Option PropHandler
  cmdCb : Option CmdHandlerSpec
  globalEndpoint : String
  logLevel : Nat
  hubCString : Option String
  propThreadStarted : Bool
  cmdThreadStarted : Bool

/-- The constructor `IoTCClient.__init__` (lines 109-123): stores identity
and credentials, clears `_connected`, `_events`, the thread handles, sets
the default endpoint, and defaults the logger to `IOTC_LOGGING_API_ONLY`
when none is given. -/
def mkIoTCClient (deviceId scopeId : String) (credType : IOTCConnectType)
    (keyOrCert : KeyOrCert) (loggerLevel : Option Nat) : IoTCClient :=
  { deviceId := deviceId
    scopeId := scopeId
    credType := credType
    keyORCert := keyOrCert
    modelId := none
    connected := false
    propCb := none
    cmdCb := none
    globalEndpoint := "global.azure-devices-provisioning.net"
    logLevel := loggerLevel.getD IOTC_LOGGING_API_ONLY
    hubCString := none
    propThreadStarted := false
    cmdThreadStarted := false }

/-- Method `isConnected` (lines 125-134), verbatim branch structure. -/
def IoTCClient.isConnected (self : IoTCClient) : Bool :=
  if self.connected then true else false

/-! ## Credential derivation (`_computeDerivedSymmetricKey`, lines 323-336) -/

/-- Outcome of `_computeDerivedSymmetricKey`: a derived key, or process
termination — on a broken base64 secret the except-branch logs and calls
`sys.exit()`, so no value (and no exception object) reaches the caller. -/
inductive DeriveResult where
  | ok (key : String)
  | sysExit
deriving DecidableEq

/-- Method `_computeDerivedSymmetricKey(secret, regId)` (running on
CPython, `gIsMicroPython = False`): base64-decode the secret, HMAC-SHA256
the UTF-8 registration id with the decoded secret as key, base64-encode
the digest. `self` is used only for logging and is omitted. -/
def IoTCClient.computeDerivedSymmetricKey (secret : String) (regId : String) : DeriveResult :=
  match b64decode secret with
  | none => .sysExit
  | some k => .ok (b64encode (hmacSha256 k (utf8Encode regId)))

/-! ## connect (lines 257-321) -/

/-- Outcomes of the external calls `connect` performs, in program order:
`register()` on the provisioning client (yielding the assigned hub),
creation of the `IoTHubDeviceClient`, and `connect()` on it. -/
structure ConnectOracle where
  registerResult : PyResult String
  hubClientResult : PyResult Unit
  hubConnectResult : PyResult Unit

/-- How `connect` terminates: normal return, a propagated exception, or
process termination by `sys.exit()` inside credential derivation. -/
inductive ConnectOutcome where
  | ok
  | raised (e : String)
  | exited
deriving DecidableEq

/-- Externally visible actions of one `connect` call. -/
inductive ConnEvent where
  | logDebug (m : String)
  | logInfo (m : String)
  | provisionInit (endpoint deviceId scopeId deviceKey : String)
  | provisionInitX509 (endpoint deviceId scopeId : String)
  | setProvisionPayload (modelId : String)
  | register
  | hubInit (connString : String)
  | hubInitX509 (hub deviceId : String)
  | hubConnectCall
  | spawnPropListener
  | spawnCmdListener
deriving DecidableEq

/-- The connection string of line 289. For the X.509 branch the Python
code interpolates the certificate dict into the string (and never uses the
result); that interpolation is abbreviated. -/
def KeyOrCert.fmtStr : KeyOrCert → String
  | .key k => k
  | .certInfo _ => "<certificate dict>"

/-- Builds `'HostName={};DeviceId={};SharedAccessKey={}'`. -/
def mkConnString (hub devId key : String) : String :=
  "HostName=" ++ hub ++ ";DeviceId=" ++ devId ++ ";SharedAccessKey=" ++ key

/-- Python truthiness of `self._modelId` (line 282): an unset or empty
model id is falsy. -/
def strOptTruthy : Option String → Bool
  | none => false
  | some s => s != ""

/-- Tail of `connect` shared by all credential branches (lines 282-321):
optional model-id payload, the provisioning try-block (register, build the
connection string, create the hub client), the hub-connect try-block which
alone sets `_connected := true`, then the two listener-thread starts. -/
def connectCore (st : IoTCClient) (isX509 : Bool) (o : ConnectOracle)
    (evs : List ConnEvent) : IoTCClient × ConnectOutcome × List ConnEvent :=
  let evs := evs ++ (if strOptTruthy st.modelId then [ConnEvent.setProvisionPayload (st.modelId.getD "")] else [])
  match o.registerResult with
  | .exn e =>
    (st, .raised e, evs ++ [.register, .logInfo "ERROR: Failed to get device provisioning information"])
  | .ok hub =>
    let cs := mkConnString hub st.deviceId st.keyORCert.fmtStr
    let st := { st with hubCString := some cs }
    let evs := evs ++ [.register, .logDebug hub, .logDebug "IoTHub Connection string",
      if isX509 then .hubInitX509 hub st.deviceId else .hubInit cs]
    match o.hubClientResult with
    | .exn e =>
      (st, .raised e, evs ++ [.logInfo "ERROR: Failed to get device provisioning information"])
    | .ok _ =>
      match o.hubConnectResult with
      | .exn e =>
        (st, .raised e, evs ++ [.hubConnectCall, .logInfo "ERROR: Failed to connect to Hub"])
      | .ok _ =>
        ({ st with connected := true, propThreadStarted := true, cmdThreadStarted := true },
         .ok,
         evs ++ [.hubConnectCall, .logDebug "Device connected", .spawnPropListener, .spawnCmdListener])

/-- Method `connect` (lines 257-321). Symmetric-key credentials are first
replaced in place by the derived device key (line 264); a broken base64
group key terminates the process inside the derivation, before the
assignment, leaving the state unchanged. The device-key kind uses the
stored key directly. The X.509 kind reads `keyFile`/`certFile` from the
credential dict (an absent key raises an uncaught `KeyError`) and falls
back to a passphrase-less certificate when `certPhrase` is absent. -/
def IoTCClient.connect (st : IoTCClient) (o : ConnectOracle) :
    IoTCClient × ConnectOutcome × List ConnEvent :=
  match st.credType with
  | .IOTC_CONNECT_SYMM_KEY =>
    match st.keyORCert with
    | .key gk =>
      match IoTCClient.computeDerivedSymmetricKey gk st.deviceId with
      | .sysExit => (st, .exited, [.logDebug "ERROR: broken base64 secret"])
      | .ok dk =>
        let st := { st with keyORCert := .key dk }
        connectCore st false o
          [.logDebug "Device key", .provisionInit st.globalEndpoint st.deviceId st.scopeId dk]
    | .certInfo _ => (st, .raised "TypeError", [])
  | .IOTC_CONNECT_DEVICE_KEY =>
    match st.keyORCert with
    | .key k =>
      connectCore st false o [.provisionInit st.globalEndpoint st.deviceId st.scopeId k]
    | .certInfo _ => (st, .raised "TypeError", [])
  | .IOTC_CONNECT_X509_CERT =>
    match st.keyORCert with
    | .key _ => (st, .raised "TypeError", [])
    | .certInfo fields =>
      match sdictGet fields "keyFile" with
      | none => (st, .raised "KeyError", [])
      | some _ =>
        match sdictGet fields "certFile" with
        | none => (st, .raised "KeyError", [])
        | some _ =>
          connectCore st true o
            ((if (sdictGet fields "certPhrase").isSome then []
              else [.logDebug "No passphrase available for certificate. Trying without it"]) ++
             [.provisionInitX509 st.globalEndpoint st.deviceId st.scopeId])

/-! ## Listener loops (`_onProperties` lines 167-196, `_onCommands` lines 206-224) -/

/-- Externally visible actions of the listener loops and the send paths. -/
inductive DeviceEvent where
  | logDebug (msg : String)
  | sleep (seconds : Nat)
  | invokeProp (name : String) (value : JVal)
  | invokeCmd (methodName : String) (requestId : String)
  | patchTwinReported (payload : List (String × JVal))
  | sendMethodResponse (status : Nat) (body : List (String × JVal))

/-- Result of one piece of loop body: proceed with the accumulated events,
or an uncaught exception that propagates and kills the listener thread. -/
inductive StepOut where
  | cont (events : List DeviceEvent)
  | raised (events : List DeviceEvent) (e : String)

/-- Prefix events onto a step result. -/
def StepOut.prepend (es : List DeviceEvent) : StepOut → StepOut
  | .cont es2 => .cont (es ++ es2)
  | .raised es2 e => .raised (es ++ es2) e

/-- Events of a step result. -/
def StepOut.events : StepOut → List DeviceEvent
  | .cont es => es
  | .raised es _ => es

/-- The acknowledgment payload of lines 187-193, with the dict-literal key
order of the source: value, status, desiredVersion, message. -/
def ackPayload (prop : String) (value : JVal) (version : JVal) : List (String × JVal) :=
  [(prop, JVal.jobj [("value", value), ("status", JVal.jstr "completed"),
                     ("desiredVersion", version), ("message", JVal.jstr "Property received")])]

/-- The `for prop in patch` body of `_onProperties` (lines 180-196), run
over the entries of the patch dict in iteration order; `patch` is the
whole dict, consulted for `patch['$version']` when acknowledging. Every
exception (subscripting a malformed property, a raising handler, a missing
`$version` on acknowledgment) is uncaught and propagates. `sendProperty`
(lines 236-245) contributes its debug line and the
`patch_twin_reported_properties` transport call. -/
def processPatchEntries (cb : PropHandler) (patch : List (String × JVal)) :
    List (String × JVal) → StepOut
  | [] => .cont []
  | (prop, pv) :: rest =>
    if prop = "$version" then processPatchEntries cb patch rest
    else
      match subscript pv "value" with
      | .exn e => .raised [] e
      | .ok value =>
        match cb prop value with
        | .exn e => .raised [.invokeProp prop value] e
        | .ok ret =>
          if ret.truthy then
            match dictGet patch "$version" with
            | .exn e => .raised [.invokeProp prop value, .logDebug "Acknowledging"] e
            | .ok ver =>
              StepOut.prepend
                [.invokeProp prop value, .logDebug "Acknowledging",
                 .logDebug "Sending property", .patchTwinReported (ackPayload prop value ver)]
                (processPatchEntries cb patch rest)
          else
            StepOut.prepend [.invokeProp prop value, .logDebug "Property unsuccessfully processed"]
              (processPatchEntries cb patch rest)

/-- What the properties receive primitive yields on one iteration: a
desired-properties patch, or an exception from the terminated session. -/
inductive RecvEvent where
  | patch (p : List (String × JVal))
  | recvRaise (e : String)

/-- Result of one iteration of a listener loop. -/
inductive IterOut where
  | idle (events : List DeviceEvent)
  | processed (events : List DeviceEvent)
  | died (events : List DeviceEvent) (e : String)

/-- Events of an iteration result. -/
def IterOut.events : IterOut → List DeviceEvent
  | .idle es => es
  | .processed es => es
  | .died es _ => es

/-- One iteration of the `while True` body of `_onProperties` (lines
169-196): a missing callback registration is caught (`except KeyError`),
logs and sleeps 10 seconds without receiving; otherwise the loop blocks on
the receive primitive and processes the patch, with any exception from the
receive or from processing propagating out of the loop. -/
def onPropertiesIter (cb? : Option PropHandler) (recv : RecvEvent) : IterOut :=
  match cb? with
  | none => .idle [.logDebug "Properties callback not found", .sleep 10]
  | some cb =>
    match recv with
    | .recvRaise e => .died [] e
    | .patch p =>
      match processPatchEntries cb p p with
      | .cont es => .processed (.logDebug "Received desired properties" :: es)
      | .raised es e => .died (.logDebug "Received desired properties" :: es) e

/-- Run of `_onProperties` with a registered handler over a finite prefix
of the received-input stream: iterates until the inputs are exhausted or
an uncaught exception terminates the loop thread; returns the emitted
events and the terminating exception, if any. -/
def onPropertiesRun (cb : PropHandler) : List RecvEvent → List DeviceEvent × Option String
  | [] => ([], none)
  | r :: rest =>
    match onPropertiesIter (some cb) r with
    | .idle es => (es, none)
    | .processed es =>
      let t := onPropertiesRun cb rest
      (es ++ t.1, t.2)
    | .died es e => (es, some e)

/-- What the command receive primitive yields on one iteration. -/
inductive CmdRecvEvent where
  | request (r : MethodRequest)
  | recvRaise (e : String)

/-- The `_cmdAck` payload (lines 198-204). -/
def cmdAckPayload (name : String) (value : JVal) (requestId : String) : List (String × JVal) :=
  [(name, JVal.jobj [("value", value), ("requestId", JVal.jstr requestId)])]

/-- Events of one `_cmdAck` call made by the command handler: `_cmdAck`
calls `sendProperty`, which logs and patches the reported twin. -/
def cmdAckEvents (c : CmdAckCall) : List DeviceEvent :=
  [.logDebug "Sending property", .patchTwinReported (cmdAckPayload c.name c.value c.requestId)]

/-- The fixed method-response body of lines 219-222. -/
def commandAckBody : List (String × JVal) :=
  [("result", JVal.jbool true), ("data", JVal.jstr "Command received")]

/-- One iteration of the `while True` body of `_onCommands` (lines
208-223): a missing callback registration logs and sleeps 10 seconds;
otherwise the loop receives a method request, logs it, sends the fixed
200 response via the transport, and only then invokes the handler with
`(method_request, self._cmdAck)`; an exception raised by the handler is
uncaught and propagates out of the loop. -/
def onCommandsIter (cb? : Option CmdHandlerSpec) (recv : CmdRecvEvent) : IterOut :=
  match cb? with
  | none => .idle [.logDebug "Commands callback not found", .sleep 10]
  | some cb =>
    match recv with
    | .recvRaise e => .died [] e
    | .request req =>
      let hd := [DeviceEvent.logDebug "Received command",
                 DeviceEvent.sendMethodResponse 200 commandAckBody,
                 DeviceEvent.invokeCmd req.name req.requestId]
      let acks := (cb req).1
      let aes := (acks.map cmdAckEvents).flatten
      match (cb req).2 with
      | none => .processed (hd ++ aes)
      | some e => .died (hd ++ aes) e

/-! ## Public operations of the client (for the frame/invariant claims) -/

/-- One invocation of a public method or one background listener-loop
iteration, with the outcome of any external call it performs. -/
inductive ClientOp where
  | isConnectedQuery
  | setGlobalEndpointOp (e : String)
  | setModelIdOp (m : String)
  | setLogLevelOp (l : Nat)
  | onPropertiesRegister (cb : PropHandler)
  | onCommandRegister (cb : CmdHandlerSpec)
  | sendTelemetryOp (payload : String)
  | sendPropertyOp (payload : List (String × JVal))
  | connectOp (o : ConnectOracle)
  | propListenerIter (r : RecvEvent)
  | cmdListenerIter (r : CmdRecvEvent)

/-- Effect of each operation on the client attributes. `sendTelemetry`
(lines 247-255), `_sendMessage` (226-234) and `sendProperty` (236-245)
only call the logger and the transport and write no attribute; the two
listener loops (167-224) read `_events`/`_deviceClient` and never write an
attribute; `on` (158-165) overwrites the registry entry for its key. -/
def applyOp (st : IoTCClient) : ClientOp → IoTCClient
  | .isConnectedQuery => st
  | .setGlobalEndpointOp e => { st with globalEndpoint := e }
  | .setModelIdOp m => { st with modelId := some m }
  | .setLogLevelOp l => { st with logLevel := l }
  | .onPropertiesRegister cb => { st with propCb := some cb }
  | .onCommandRegister cb => { st with cmdCb := some cb }
  | .sendTelemetryOp _ => st
  | .sendPropertyOp _ => st
  | .connectOp o => (IoTCClient.connect st o).1
  | .propListenerIter _ => st
  | .cmdListenerIter _ => st

/-! ## Helper predicates over event traces -/

/-- True on transport method responses (command acknowledgments). -/
def isMethodResponse : DeviceEvent → Bool
  | .sendMethodResponse _ _ => true
  | _ => false

/-- True on reported-twin patches (property acknowledgments). -/
def isReportedPatch : DeviceEvent → Bool
  | .patchTwinReported _ => true
  | _ => false

/-- The handler invocations recorded in a trace, in order. -/
def invokesOf (es : List DeviceEvent) : List (String × JVal) :=
  es.filterMap (fun e => match e with | .invokeProp n v => some (n, v) | _ => none)

/-- Events generated by the command handler's own `_cmdAck` calls are
logger lines and reported-twin patches, never method responses. -/
lemma cmdAck_events_no_response : ∀ (acks : List CmdAckCall),
    ((acks.map cmdAckEvents).flatten).all (fun e => !isMethodResponse e) = true := by
  intro acks
  induction acks with
  | nil => rfl
  | cons a rest ih =>
    simp only [List.map_cons, List.flatten_cons, List.all_append, ih, Bool.and_true]
    rfl

/-- C1: for every command invocation received with a registered handler,
the loop body emits exactly one method response — status 200 with the
fixed body `{'result': True, 'data': 'Command received'}` — and emits it
before the handler is invoked, whatever the handler then does (its
`_cmdAck` calls and a possible exception contribute only the tail of the
trace, which contains no method response). -/
theorem commandLoop_acks_before_handler (cb : CmdHandlerSpec) (req : MethodRequest) :
    ∃ tail,
      (onCommandsIter (some cb) (CmdRecvEvent.request req)).events =
        [DeviceEvent.logDebug "Received command",
         DeviceEvent.sendMethodResponse 200 commandAckBody,
         DeviceEvent.invokeCmd req.name req.requestId] ++ tail ∧
      tail.all (fun e => !isMethodResponse e) = true ∧
      ((onCommandsIter (some cb) (CmdRecvEvent.request req)).events.countP
        isMethodResponse) = 1 := by
  have hev : (onCommandsIter (some cb) (CmdRecvEvent.request req)).events =
      [DeviceEvent.logDebug "Received command",
       DeviceEvent.sendMethodResponse 200 commandAckBody,
       DeviceEvent.invokeCmd req.name req.requestId] ++ ((cb req).1.map cmdAckEvents).flatten := by
    unfold onCommandsIter
    cases h : (cb req).2 <;> simp [IterOut.events, h]
  have htail := cmdAck_events_no_response (cb req).1
  have hzero : List.countP isMethodResponse (((cb req).1.map cmdAckEvents).flatten) = 0 := by
    rw [List.countP_eq_zero]
    intro a ha
    simpa using List.all_eq_true.mp htail a ha
  refine ⟨((cb req).1.map cmdAckEvents).flatten, hev, htail, ?_⟩
  rw [hev, List.countP_append, hzero]
  rfl

/-! ## C2: error policy of the property listener loop -/

/-- A sample desired-property patch: `{"$version": 3, "temp": {"value": 21}}`. -/
def demoPatch : List (String × JVal) :=
  [("$version", JVal.jnum 3), ("temp", JVal.jobj [("value", JVal.jnum 21)])]

/-- A registered properties handler that raises on every invocation. -/
def raisingHandler : PropHandler := fun _ _ => .exn "handler exception"

/-- C2 counterexample: with a registered handler that raises, the
property listener loop does not swallow the exception — the run over two
incoming patches stops inside the first one (the invocation of the second
patch never happens and the loop reports the terminating exception), even
though neither the thread was terminated nor the transport failed. -/
theorem propertyLoop_exception_not_swallowed_cex :
    onPropertiesRun raisingHandler [RecvEvent.patch demoPatch, RecvEvent.patch demoPatch] =
      ([DeviceEvent.logDebug "Received desired properties",
        DeviceEvent.invokeProp "temp" (JVal.jnum 21)], some "handler exception") ∧
    (invokesOf (onPropertiesRun raisingHandler
        [RecvEvent.patch demoPatch, RecvEvent.patch demoPatch]).1).length = 1 :=
  ⟨rfl, rfl⟩

/-- C2 (amended): the only failure the property listener loop swallows is
the missing-handler registry lookup (`except KeyError`), which makes the
iteration log, sleep 10 seconds and retry. A failure of the receive
primitive terminates the loop; an exception raised inside the processing
of a single patch — in particular by the registered handler — is uncaught,
propagates, and permanently terminates the loop, leaving the remaining
input unprocessed; only iterations whose processing completes normally
let the loop continue. -/
theorem propertyLoop_error_policy :
    (∀ r, onPropertiesIter none r =
       IterOut.idle [DeviceEvent.logDebug "Properties callback not found", DeviceEvent.sleep 10]) ∧
    (∀ (cb : PropHandler) (e : String), onPropertiesIter (some cb) (RecvEvent.recvRaise e) =
       IterOut.died [] e) ∧
    (∀ (cb : PropHandler) r es e rest, onPropertiesIter (some cb) r = IterOut.died es e →
       onPropertiesRun cb (r :: rest) = (es, some e)) ∧
    (∀ (cb : PropHandler) r es rest, onPropertiesIter (some cb) r = IterOut.processed es →
       onPropertiesRun cb (r :: rest) =
         (es ++ (onPropertiesRun cb rest).1, (onPropertiesRun cb rest).2)) ∧
    (∀ (cb : PropHandler) (prop : String) (pv v : JVal) (e : String),
       subscript pv "value" = PyResult.ok v → cb prop v = PyResult.exn e → prop ≠ "$version" →
       onPropertiesIter (some cb) (RecvEvent.patch [(prop, pv)]) =
         IterOut.died [DeviceEvent.logDebug "Received desired properties",
                       DeviceEvent.invokeProp prop v] e) := by
  refine ⟨fun r => rfl, fun cb e => rfl, ?_, ?_, ?_⟩
  · intro cb r es e rest h
    unfold onPropertiesRun
    rw [h]
  · intro cb r es rest h
    have hstep : onPropertiesRun cb (r :: rest) =
        match onPropertiesIter (some cb) r with
        | IterOut.idle es => (es, none)
        | IterOut.processed es => (es ++ (onPropertiesRun cb rest).1, (onPropertiesRun cb rest).2)
        | IterOut.died es e => (es, some e) := rfl
    rw [hstep, h]
  · intro cb prop pv v e hsub hcb hprop
    unfold onPropertiesIter
    simp [processPatchEntries, hprop, hsub, hcb]

/-- C2 witness for the amended policy: the loop-terminating conjunct
applied to a concrete raising handler and a single concrete patch. -/
theorem propertyLoop_error_policy_witness :
    onPropertiesRun raisingHandler [RecvEvent.patch demoPatch] =
      ([DeviceEvent.logDebug "Received desired properties",
        DeviceEvent.invokeProp "temp" (JVal.jnum 21)], some "handler exception") :=
  propertyLoop_error_policy.2.2.1 raisingHandler (RecvEvent.patch demoPatch)
    [DeviceEvent.logDebug "Received desired properties",
     DeviceEvent.invokeProp "temp" (JVal.jnum 21)] "handler exception" [] rfl

/-! ## C8: log-level gating of the console logger -/

/-- C8: `debug` emits its message exactly at level `IOTC_LOGGING_ALL`;
`info` emits exactly at `IOTC_LOGGING_API_ONLY` or `IOTC_LOGGING_ALL`;
at `IOTC_LOGGING_DISABLED` both emit nothing. -/
theorem consoleLogger_level_gating (lvl : Nat) (msg : String)
    (h : lvl = IOTC_LOGGING_DISABLED ∨ lvl = IOTC_LOGGING_API_ONLY ∨ lvl = IOTC_LOGGING_ALL) :
    ((ConsoleLogger.debug ⟨lvl⟩ msg = [msg]) ↔ lvl = IOTC_LOGGING_ALL) ∧
    ((ConsoleLogger.info ⟨lvl⟩ msg = [msg]) ↔
       (lvl = IOTC_LOGGING_API_ONLY ∨ lvl = IOTC_LOGGING_ALL)) ∧
    (lvl = IOTC_LOGGING_DISABLED →
       ConsoleLogger.info ⟨lvl⟩ msg = [] ∧ ConsoleLogger.debug ⟨lvl⟩ msg = []) := by
  rcases h with h | h | h <;> subst h <;>
    simp [ConsoleLogger.info, ConsoleLogger.debug,
      IOTC_LOGGING_DISABLED, IOTC_LOGGING_API_ONLY, IOTC_LOGGING_ALL]

/-- C8 witness: the gating at the concrete level `IOTC_LOGGING_API_ONLY`. -/
theorem consoleLogger_level_gating_witness :
    ((ConsoleLogger.debug ⟨2⟩ "m" = ["m"]) ↔ (2 : Nat) = IOTC_LOGGING_ALL) ∧
    ((ConsoleLogger.info ⟨2⟩ "m" = ["m"]) ↔
       ((2 : Nat) = IOTC_LOGGING_API_ONLY ∨ (2 : Nat) = IOTC_LOGGING_ALL)) ∧
    ((2 : Nat) = IOTC_LOGGING_DISABLED →
       ConsoleLogger.info ⟨2⟩ "m" = [] ∧ ConsoleLogger.debug ⟨2⟩ "m" = []) :=
  consoleLogger_level_gating 2 "m" (by simp [IOTC_LOGGING_API_ONLY])

/-! ## C4 and C5: patch processing -/

/-- The `value` field of a property entry (for stating what the handler
receives). -/
def jvalue : JVal → JVal
  | .jobj fs => (jget fs "value").getD .null
  | _ => .null

/-- A patch entry is well formed when its value is a dict with a `value`
key, as in the PropertyPatch data model. -/
def patchEntryWF : String × JVal → Bool
  | (_, .jobj fs) => (jget fs "value").isSome
  | _ => false

/-- Every non-`$version` entry of the patch is well formed. -/
def patchWF (l : List (String × JVal)) : Bool :=
  l.all (fun e => e.1 == "$version" || patchEntryWF e)

/-- The `(propertyName, value)` pairs of the non-`$version` entries, in
iteration order. -/
def nonVersionValues (l : List (String × JVal)) : List (String × JVal) :=
  (l.filter (fun e => !(e.1 == "$version"))).map (fun e => (e.1, jvalue e.2))

/-- Invocations recorded by a prepended step. -/
lemma invokesOf_append (es1 es2 : List DeviceEvent) :
    invokesOf (es1 ++ es2) = invokesOf es1 ++ invokesOf es2 := by
  simp [invokesOf]

/-- When the patch carries a `$version` and the handler never raises,
processing a list of well-formed entries completes normally and invokes
the handler exactly on the non-`$version` entries, in order, with each
entry's `value` field. -/
lemma processPatchEntries_ok_invokes (cb : PropHandler) (patch : List (String × JVal)) (ver : JVal)
    (hver : dictGet patch "$version" = PyResult.ok ver)
    (hok : ∀ n v, (cb n v).isOk = true) :
    ∀ l, patchWF l = true →
      ∃ es, processPatchEntries cb patch l = StepOut.cont es ∧ invokesOf es = nonVersionValues l := by
  intro l
  induction l with
  | nil => intro _; exact ⟨[], rfl, rfl⟩
  | cons hd rest ih =>
    intro hwf
    obtain ⟨prop, pv⟩ := hd
    rw [patchWF, List.all_cons] at hwf
    have hwf1 := (Bool.and_eq_true _ _).mp hwf
    obtain ⟨es, hes, hinv⟩ := ih hwf1.2
    by_cases hv : prop = "$version"
    · refine ⟨es, ?_, ?_⟩
      · simpa [processPatchEntries, hv] using hes
      · rw [hinv]
        simp [nonVersionValues, hv]
    · have hentry : patchEntryWF (prop, pv) = true := by
        rcases (Bool.or_eq_true _ _).mp hwf1.1 with h | h
        · exact absurd (by simpa using h) hv
        · exact h
      obtain ⟨fs, rfl⟩ : ∃ fs, pv = JVal.jobj fs := by
        cases pv <;> simp [patchEntryWF] at hentry <;> exact ⟨_, rfl⟩
      obtain ⟨v, hvv⟩ : ∃ v, jget fs "value" = some v := by
        simpa [patchEntryWF, Option.isSome_iff_exists] using hentry
      have hsub : subscript (JVal.jobj fs) "value" = PyResult.ok v := by
        simp [subscript, hvv]
      have hjv : jvalue (JVal.jobj fs) = v := by simp [jvalue, hvv]
      cases hcb : cb prop v with
      | exn e =>
        have h := hok prop v
        rw [hcb] at h
        simp [PyResult.isOk] at h
      | ok ret =>
        cases htr : ret.truthy with
        | true =>
          refine ⟨[DeviceEvent.invokeProp prop v, DeviceEvent.logDebug "Acknowledging",
                   DeviceEvent.logDebug "Sending property",
                   DeviceEvent.patchTwinReported (ackPayload prop v ver)] ++ es, ?_, ?_⟩
          · rw [show processPatchEntries cb patch ((prop, JVal.jobj fs) :: rest) =
                StepOut.prepend
                  [.invokeProp prop v, .logDebug "Acknowledging",
                   .logDebug "Sending property", .patchTwinReported (ackPayload prop v ver)]
                  (processPatchEntries cb patch rest) from by
              simp [processPatchEntries, hv, hsub, hcb, htr, hver]]
            rw [hes]
            rfl
          · rw [invokesOf_append, hinv]
            simp [invokesOf, nonVersionValues, hv, hjv]
        | false =>
          refine ⟨[DeviceEvent.invokeProp prop v,
                   DeviceEvent.logDebug "Property unsuccessfully processed"] ++ es, ?_, ?_⟩
          · rw [show processPatchEntries cb patch ((prop, JVal.jobj fs) :: rest) =
                StepOut.prepend [.invokeProp prop v, .logDebug "Property unsuccessfully processed"]
                  (processPatchEntries cb patch rest) from by
              simp [processPatchEntries, hv, hsub, hcb, htr]]
            rw [hes]
            rfl
          · rw [invokesOf_append, hinv]
            simp [invokesOf, nonVersionValues, hv, hjv]

/-- C4: with a registered handler that returns normally and a well-formed
versioned patch, one pass of the property loop over the patch invokes the
handler exactly once per property except the reserved `$version` key, in
iteration order, passing `(propertyName, value)`. -/
theorem propertyLoop_skips_version (cb : PropHandler) (p : List (String × JVal)) (ver : JVal)
    (hver : dictGet p "$version" = PyResult.ok ver)
    (hok : ∀ n v, (cb n v).isOk = true)
    (hwf : patchWF p = true) :
    ∃ es, processPatchEntries cb p p = StepOut.cont es ∧
      invokesOf es = nonVersionValues p ∧
      onPropertiesIter (some cb) (RecvEvent.patch p) =
        IterOut.processed (DeviceEvent.logDebug "Received desired properties" :: es) := by
  obtain ⟨es, hes, hinv⟩ := processPatchEntries_ok_invokes cb p ver hver hok p hwf
  refine ⟨es, hes, hinv, ?_⟩
  simp [onPropertiesIter, hes]

/-- Handler returning success on every property. -/
def acceptingHandler : PropHandler := fun _ _ => .ok (JVal.jbool true)

/-- C4 witness: for the patch `{"$version": 3, "temp": {"value": 21}}`
and an always-succeeding handler, the handler is invoked exactly once,
with `("temp", 21)`. -/
theorem propertyLoop_skips_version_witness :
    ∃ es, processPatchEntries acceptingHandler demoPatch demoPatch = StepOut.cont es ∧
      invokesOf es = [("temp", JVal.jnum 21)] ∧
      onPropertiesIter (some acceptingHandler) (RecvEvent.patch demoPatch) =
        IterOut.processed (DeviceEvent.logDebug "Received desired properties" :: es) := by
  obtain ⟨es, hes, hinv, hit⟩ :=
    propertyLoop_skips_version acceptingHandler demoPatch (JVal.jnum 3) rfl (fun _ _ => rfl) rfl
  exact ⟨es, hes, hinv.trans rfl, hit⟩

/-- C5: processing of one property entry inside a patch whose version is
`ver`. When the handler reports success (a truthy return), the loop sends
exactly one reported-property acknowledgment, whose payload is the
property name mapped to `{"value": v, "status": "completed",
"desiredVersion": ver, "message": "Property received"}`, and proceeds to
the remaining entries; when the handler reports failure, it sends no
acknowledgment and proceeds. -/
theorem propertyLoop_ack_payload (cb : PropHandler) (p : List (String × JVal))
    (prop : String) (pv : JVal) (rest : List (String × JVal)) (v ver ret : JVal)
    (hprop : prop ≠ "$version")
    (hsub : subscript pv "value" = PyResult.ok v)
    (hver : dictGet p "$version" = PyResult.ok ver)
    (hcb : cb prop v = PyResult.ok ret) :
    (ret.truthy = true →
      processPatchEntries cb p ((prop, pv) :: rest) =
        StepOut.prepend
          [DeviceEvent.invokeProp prop v, DeviceEvent.logDebug "Acknowledging",
           DeviceEvent.logDebug "Sending property",
           DeviceEvent.patchTwinReported
             [(prop, JVal.jobj [("value", v), ("status", JVal.jstr "completed"),
                                ("desiredVersion", ver), ("message", JVal.jstr "Property received")])]]
          (processPatchEntries cb p rest) ∧
      List.countP isReportedPatch
        [DeviceEvent.invokeProp prop v, DeviceEvent.logDebug "Acknowledging",
         DeviceEvent.logDebug "Sending property",
         DeviceEvent.patchTwinReported (ackPayload prop v ver)] = 1) ∧
    (ret.truthy = false →
      processPatchEntries cb p ((prop, pv) :: rest) =
        StepOut.prepend
          [DeviceEvent.invokeProp prop v, DeviceEvent.logDebug "Property unsuccessfully processed"]
          (processPatchEntries cb p rest) ∧
      List.countP isReportedPatch
        [DeviceEvent.invokeProp prop v,
         DeviceEvent.logDebug "Property unsuccessfully processed"] = 0) := by
  constructor
  · intro htr
    constructor
    · simp [processPatchEntries, hprop, hsub, hcb, htr, hver, ackPayload]
    · rfl
  · intro htr
    constructor
    · simp [processPatchEntries, hprop, hsub, hcb, htr]
    · rfl

/-- Handler returning failure on every property. -/
def rejectingHandler : PropHandler := fun _ _ => .ok (JVal.jbool false)

/-- C5 witness: the acknowledgment equations instantiated on the concrete
patch `{"$version": 3, "temp": {"value": 21}}`, once with a succeeding
handler and once with a failing one. -/
theorem propertyLoop_ack_payload_witness :
    (processPatchEntries acceptingHandler demoPatch [("temp", JVal.jobj [("value", JVal.jnum 21)])] =
      StepOut.prepend
        [DeviceEvent.invokeProp "temp" (JVal.jnum 21), DeviceEvent.logDebug "Acknowledging",
         DeviceEvent.logDebug "Sending property",
         DeviceEvent.patchTwinReported
           [("temp", JVal.jobj [("value", JVal.jnum 21), ("status", JVal.jstr "completed"),
                                ("desiredVersion", JVal.jnum 3), ("message", JVal.jstr "Property received")])]]
        (processPatchEntries acceptingHandler demoPatch [])) ∧
    (processPatchEntries rejectingHandler demoPatch [("temp", JVal.jobj [("value", JVal.jnum 21)])] =
      StepOut.prepend
        [DeviceEvent.invokeProp "temp" (JVal.jnum 21),
         DeviceEvent.logDebug "Property unsuccessfully processed"]
        (processPatchEntries rejectingHandler demoPatch [])) := by
  constructor
  · exact ((propertyLoop_ack_payload acceptingHandler demoPatch "temp"
      (JVal.jobj [("value", JVal.jnum 21)]) [] (JVal.jnum 21) (JVal.jnum 3) (JVal.jbool true)
      (by simp) rfl rfl rfl).1 rfl).1
  · exact ((propertyLoop_ack_payload rejectingHandler demoPatch "temp"
      (JVal.jobj [("value", JVal.jnum 21)]) [] (JVal.jnum 21) (JVal.jnum 3) (JVal.jbool false)
      (by simp) rfl rfl rfl).2 rfl).1

/-! ## C6: structure and validity of the derived credential -/

/-- Decoding inverts encoding on each 6-bit index. -/
lemma b64CharVal_encChar : ∀ n, n < 64 → b64CharVal (b64EncChar n) = some n := by decide

/-- No 6-bit index encodes to the padding character. -/
lemma b64EncChar_ne_pad : ∀ n, n < 64 → b64EncChar n ≠ '=' := by decide

/-- Alphabet characters survive the decoder's filter. -/
lemma keep_encChar : ∀ n, n < 64 → b64KeepChar (b64EncChar n) = true := by decide

/-- The padding character survives the decoder's filter. -/
lemma keep_pad : b64KeepChar '=' = true := rfl

/-- The base64 encoding of a byte list contains only kept characters, so
Python's pre-decode filter leaves it unchanged. -/
lemma encode_filter_id : ∀ bs : List Nat, (∀ b ∈ bs, b < 256) →
    (b64encodeCore bs).filter b64KeepChar = b64encodeCore bs
  | [], _ => rfl
  | [b1], h => by
    have hb1 : b1 < 256 := h b1 (by simp)
    simp [b64encodeCore,
      keep_encChar _ (by omega : b1 / 4 < 64),
      keep_encChar _ (by omega : b1 % 4 * 16 < 64), keep_pad]
  | [b1, b2], h => by
    have hb1 : b1 < 256 := h b1 (by simp)
    have hb2 : b2 < 256 := h b2 (by simp)
    simp [b64encodeCore,
      keep_encChar _ (by omega : b1 / 4 < 64),
      keep_encChar _ (by omega : b1 % 4 * 16 + b2 / 16 < 64),
      keep_encChar _ (by omega : b2 % 16 * 4 < 64), keep_pad]
  | b1 :: b2 :: b3 :: rest, h => by
    have hb1 : b1 < 256 := h b1 (by simp)
    have hb2 : b2 < 256 := h b2 (by simp)
    have hb3 : b3 < 256 := h b3 (by simp)
    have ih := encode_filter_id rest (fun b hb => h b (by simp [hb]))
    simp only [b64encodeCore,
      List.filter_cons_of_pos (keep_encChar _ (by omega : b1 / 4 < 64)),
      List.filter_cons_of_pos (keep_encChar _ (by omega : b1 % 4 * 16 + b2 / 16 < 64)),
      List.filter_cons_of_pos (keep_encChar _ (by omega : b2 % 16 * 4 + b3 / 64 < 64)),
      List.filter_cons_of_pos (keep_encChar _ (by omega : b3 % 64 < 64)), ih]

/-- Quad decoding inverts the encoder on byte lists. -/
lemma decodeQuads_encode : ∀ bs : List Nat, (∀ b ∈ bs, b < 256) →
    b64decodeQuads (b64encodeCore bs) = some bs
  | [], _ => rfl
  | [b1], h => by
    have hb1 : b1 < 256 := h b1 (by simp)
    simp only [b64encodeCore, b64decodeQuads,
      b64CharVal_encChar _ (by omega : b1 / 4 < 64),
      b64CharVal_encChar _ (by omega : b1 % 4 * 16 < 64)]
    simp
    omega
  | [b1, b2], h => by
    have hb1 : b1 < 256 := h b1 (by simp)
    have hb2 : b2 < 256 := h b2 (by simp)
    simp only [b64encodeCore, b64decodeQuads,
      b64CharVal_encChar _ (by omega : b1 / 4 < 64),
      b64CharVal_encChar _ (by omega : b1 % 4 * 16 + b2 / 16 < 64),
      b64CharVal_encChar _ (by omega : b2 % 16 * 4 < 64),
      if_neg (b64EncChar_ne_pad _ (by omega : b2 % 16 * 4 < 64))]
    simp
    constructor <;> omega
  | b1 :: b2 :: b3 :: rest, h => by
    have hb1 : b1 < 256 := h b1 (by simp)
    have hb2 : b2 < 256 := h b2 (by simp)
    have hb3 : b3 < 256 := h b3 (by simp)
    have ih := decodeQuads_encode rest (fun b hb => h b (by simp [hb]))
    simp only [b64encodeCore, b64decodeQuads,
      b64CharVal_encChar _ (by omega : b1 / 4 < 64),
      b64CharVal_encChar _ (by omega : b1 % 4 * 16 + b2 / 16 < 64),
      b64CharVal_encChar _ (by omega : b2 % 16 * 4 + b3 / 64 < 64),
      b64CharVal_encChar _ (by omega : b3 % 64 < 64),
      if_neg (b64EncChar_ne_pad _ (by omega : b2 % 16 * 4 + b3 / 64 < 64)),
      if_neg (b64EncChar_ne_pad _ (by omega : b3 % 64 < 64)), ih, Option.map_some]
    simp
    refine ⟨?_, ?_, ?_⟩ <;> omega

/-- Round trip: Python accepts the encoder's output and recovers the bytes. -/
lemma b64_roundtrip (bs : List Nat) (h : ∀ b ∈ bs, b < 256) :
    b64decode (b64encode bs) = some bs := by
  unfold b64decode b64encode
  rw [show (String.mk (b64encodeCore bs)).data = b64encodeCore bs from rfl,
    encode_filter_id bs h, decodeQuads_encode bs h]

/-- Big-endian serialized bytes are bytes. -/
lemma bytesBE_lt : ∀ (k v : Nat), ∀ b ∈ bytesBE k v, b < 256 := by
  intro k
  induction k with
  | zero => intro v b hb; simp [bytesBE] at hb
  | succ k ih =>
    intro v b hb
    simp only [bytesBE, List.mem_append, List.mem_singleton] at hb
    rcases hb with hb | hb
    · exact ih _ b hb
    · omega

/-- SHA-256 digests are byte lists. -/
lemma sha256_lt (msg : List Nat) : ∀ b ∈ sha256 msg, b < 256 := by
  intro b hb
  simp only [sha256, List.mem_flatten, List.mem_map] at hb
  obtain ⟨l, ⟨w, _, rfl⟩, hbl⟩ := hb
  exact bytesBE_lt 4 w b hbl

/-- HMAC-SHA256 digests are byte lists. -/
lemma hmacSha256_lt (key msg : List Nat) : ∀ b ∈ hmacSha256 key msg, b < 256 := by
  intro b hb
  exact sha256_lt _ b hb

/-- C6: on a well-formed base64 group key, `_computeDerivedSymmetricKey`
returns the base64 encoding of the HMAC-SHA256 digest of the UTF-8
registration id keyed with the decoded group key; it is a pure function
(two calls with the same inputs are the same value), and its output is
itself valid base64 (the decoder accepts it). -/
theorem derive_structure (gk rid : String) (k : List Nat) (h : b64decode gk = some k) :
    IoTCClient.computeDerivedSymmetricKey gk rid =
      DeriveResult.ok (b64encode (hmacSha256 k (utf8Encode rid))) ∧
    IoTCClient.computeDerivedSymmetricKey gk rid = IoTCClient.computeDerivedSymmetricKey gk rid ∧
    (b64decode (b64encode (hmacSha256 k (utf8Encode rid)))).isSome = true := by
  refine ⟨?_, rfl, ?_⟩
  · unfold IoTCClient.computeDerivedSymmetricKey
    rw [h]
  · rw [b64_roundtrip _ (hmacSha256_lt _ _)]
    rfl

set_option maxRecDepth 100000

/-- C6 witness: the derivation at the concrete group key
`"c2VjcmV0"` (base64 of `"secret"`) and registration id `"device1"`,
together with the concrete derived value. -/
theorem derive_structure_witness :
    b64decode "c2VjcmV0" = some [115, 101, 99, 114, 101, 116] ∧
    (IoTCClient.computeDerivedSymmetricKey "c2VjcmV0" "device1" =
       DeriveResult.ok (b64encode (hmacSha256 [115, 101, 99, 114, 101, 116] (utf8Encode "device1"))) ∧
     IoTCClient.computeDerivedSymmetricKey "c2VjcmV0" "device1" =
       IoTCClient.computeDerivedSymmetricKey "c2VjcmV0" "device1" ∧
     (b64decode (b64encode (hmacSha256 [115, 101, 99, 114, 101, 116] (utf8Encode "device1")))).isSome = true) ∧
    IoTCClient.computeDerivedSymmetricKey "c2VjcmV0" "device1" =
      DeriveResult.ok "jSzra7a8b0T6gP4JDzf5tj+kxTQIm1pjlG4jO5cQ1zA=" :=
  ⟨rfl, derive_structure "c2VjcmV0" "device1" [115, 101, 99, 114, 101, 116] rfl, rfl⟩

/-! ## Connect lemmas and the connection-state claims -/

/-- The shared tail of `connect` sets `_connected := true` exactly on the
normal-return path; on a raised exception it leaves the flag as it was. -/
lemma connectCore_cases (st : IoTCClient) (isX509 : Bool) (o : ConnectOracle) (evs : List ConnEvent) :
    (((connectCore st isX509 o evs).2.1 = ConnectOutcome.ok) →
       (connectCore st isX509 o evs).1.connected = true) ∧
    (((connectCore st isX509 o evs).2.1 ≠ ConnectOutcome.ok) →
       (connectCore st isX509 o evs).1.connected = st.connected) := by
  obtain ⟨reg, cli, conn⟩ := o
  cases reg <;> cases cli <;> cases conn <;> simp [connectCore]

/-- The shared tail of `connect` writes none of the identity or credential
attributes. -/
lemma connectCore_frame (st : IoTCClient) (isX509 : Bool) (o : ConnectOracle) (evs : List ConnEvent) :
    (connectCore st isX509 o evs).1.keyORCert = st.keyORCert ∧
    (connectCore st isX509 o evs).1.deviceId = st.deviceId ∧
    (connectCore st isX509 o evs).1.scopeId = st.scopeId ∧
    (connectCore st isX509 o evs).1.credType = st.credType ∧
    (connectCore st isX509 o evs).1.globalEndpoint = st.globalEndpoint := by
  obtain ⟨reg, cli, conn⟩ := o
  cases reg <;> cases cli <;> cases conn <;> simp [connectCore]

/-- Events accumulated before the shared tail appear in its event trace. -/
lemma connectCore_evs_mem (st : IoTCClient) (isX509 : Bool) (o : ConnectOracle)
    (evs : List ConnEvent) (e : ConnEvent) (he : e ∈ evs) :
    e ∈ (connectCore st isX509 o evs).2.2 := by
  obtain ⟨reg, cli, conn⟩ := o
  cases reg <;> cases cli <;> cases conn <;> simp [connectCore, he]

/-- `connect` sets the connected flag exactly on its normal return and
leaves it unchanged on every raising or exiting path. -/
lemma connect_connected_cases (st : IoTCClient) (o : ConnectOracle) :
    (((IoTCClient.connect st o).2.1 = ConnectOutcome.ok) →
       (IoTCClient.connect st o).1.connected = true) ∧
    (((IoTCClient.connect st o).2.1 ≠ ConnectOutcome.ok) →
       (IoTCClient.connect st o).1.connected = st.connected) := by
  obtain ⟨dId, sId, ct, kc, mId, conn, pcb, ccb, ge, ll, hcs, pts, cts⟩ := st
  cases ct with
  | IOTC_CONNECT_SYMM_KEY =>
    cases kc with
    | key gk =>
      simp only [IoTCClient.connect]
      cases hd : IoTCClient.computeDerivedSymmetricKey gk dId with
      | ok dk => exact connectCore_cases _ false o _
      | sysExit => simp
    | certInfo fs => simp [IoTCClient.connect]
  | IOTC_CONNECT_DEVICE_KEY =>
    cases kc with
    | key k =>
      simp only [IoTCClient.connect]
      exact connectCore_cases _ false o _
    | certInfo fs => simp [IoTCClient.connect]
  | IOTC_CONNECT_X509_CERT =>
    cases kc with
    | key k => simp [IoTCClient.connect]
    | certInfo fs =>
      simp only [IoTCClient.connect]
      cases h1 : sdictGet fs "keyFile" with
      | none => simp
      | some kf =>
        cases h2 : sdictGet fs "certFile" with
        | none => simp
        | some cf => exact connectCore_cases _ true o _

/-- `connect` never writes the identity attributes. -/
lemma connect_frame (st : IoTCClient) (o : ConnectOracle) :
    (IoTCClient.connect st o).1.deviceId = st.deviceId ∧
    (IoTCClient.connect st o).1.scopeId = st.scopeId ∧
    (IoTCClient.connect st o).1.credType = st.credType ∧
    (IoTCClient.connect st o).1.globalEndpoint = st.globalEndpoint := by
  obtain ⟨dId, sId, ct, kc, mId, conn, pcb, ccb, ge, ll, hcs, pts, cts⟩ := st
  cases ct with
  | IOTC_CONNECT_SYMM_KEY =>
    cases kc with
    | key gk =>
      simp only [IoTCClient.connect]
      cases hd : IoTCClient.computeDerivedSymmetricKey gk dId with
      | ok dk =>
        exact ⟨(connectCore_frame _ _ _ _).2.1, (connectCore_frame _ _ _ _).2.2.1,
          (connectCore_frame _ _ _ _).2.2.2.1, (connectCore_frame _ _ _ _).2.2.2.2⟩
      | sysExit => simp
    | certInfo fs => simp [IoTCClient.connect]
  | IOTC_CONNECT_DEVICE_KEY =>
    cases kc with
    | key k =>
      simp only [IoTCClient.connect]
      exact ⟨(connectCore_frame _ _ _ _).2.1, (connectCore_frame _ _ _ _).2.2.1,
        (connectCore_frame _ _ _ _).2.2.2.1, (connectCore_frame _ _ _ _).2.2.2.2⟩
    | certInfo fs => simp [IoTCClient.connect]
  | IOTC_CONNECT_X509_CERT =>
    cases kc with
    | key k => simp [IoTCClient.connect]
    | certInfo fs =>
      simp only [IoTCClient.connect]
      cases h1 : sdictGet fs "keyFile" with
      | none => simp
      | some kf =>
        cases h2 : sdictGet fs "certFile" with
        | none => simp
        | some cf =>
          exact ⟨(connectCore_frame _ _ _ _).2.1, (connectCore_frame _ _ _ _).2.2.1,
            (connectCore_frame _ _ _ _).2.2.2.1, (connectCore_frame _ _ _ _).2.2.2.2⟩

/-- Unfolding of `connect` on a symmetric-key client whose derivation
succeeds. -/
lemma connect_eq_symm_ok (st : IoTCClient) (o : ConnectOracle) (gk dk : String)
    (h1 : st.credType = IOTCConnectType.IOTC_CONNECT_SYMM_KEY)
    (h2 : st.keyORCert = KeyOrCert.key gk)
    (h3 : IoTCClient.computeDerivedSymmetricKey gk st.deviceId = DeriveResult.ok dk) :
    IoTCClient.connect st o =
      connectCore { st with keyORCert := KeyOrCert.key dk } false o
        [ConnEvent.logDebug "Device key",
         ConnEvent.provisionInit st.globalEndpoint st.deviceId st.scopeId dk] := by
  obtain ⟨dId, sId, ct, kc, mId, conn, pcb, ccb, ge, ll, hcs, pts, cts⟩ := st
  cases ct <;> cases kc <;> simp_all [IoTCClient.connect]

/-- Unfolding of `connect` on a symmetric-key client whose derivation
hits `sys.exit()`. -/
lemma connect_eq_symm_exit (st : IoTCClient) (o : ConnectOracle) (gk : String)
    (h1 : st.credType = IOTCConnectType.IOTC_CONNECT_SYMM_KEY)
    (h2 : st.keyORCert = KeyOrCert.key gk)
    (h3 : IoTCClient.computeDerivedSymmetricKey gk st.deviceId = DeriveResult.sysExit) :
    IoTCClient.connect st o =
      (st, ConnectOutcome.exited, [ConnEvent.logDebug "ERROR: broken base64 secret"]) := by
  obtain ⟨dId, sId, ct, kc, mId, conn, pcb, ccb, ge, ll, hcs, pts, cts⟩ := st
  cases ct <;> cases kc <;> simp_all [IoTCClient.connect]

/-- On symmetric-key credentials with a decodable group key, `connect`
overwrites the stored credential with the derived key and provisions with
the derived key. -/
lemma connect_symm_spec (st : IoTCClient) (o : ConnectOracle) (gk dk : String)
    (h1 : st.credType = IOTCConnectType.IOTC_CONNECT_SYMM_KEY)
    (h2 : st.keyORCert = KeyOrCert.key gk)
    (h3 : IoTCClient.computeDerivedSymmetricKey gk st.deviceId = DeriveResult.ok dk) :
    (IoTCClient.connect st o).1.keyORCert = KeyOrCert.key dk ∧
    ConnEvent.provisionInit st.globalEndpoint st.deviceId st.scopeId dk ∈
      (IoTCClient.connect st o).2.2 := by
  rw [connect_eq_symm_ok st o gk dk h1 h2 h3]
  exact ⟨(connectCore_frame _ false o _).1, connectCore_evs_mem _ false o _ _ (by simp)⟩

/-! ## C3: isConnected across the connect lifecycle -/

/-- C3: a freshly constructed client reports not connected; from a
disconnected state, a `connect` that returns normally leaves
`isConnected()` true, and a `connect` that raises (or exits) leaves
`isConnected()` false — the flag is only set after every fallible step
has succeeded. -/
theorem isConnected_connect_contract :
    (∀ dId sId ct k ll, (mkIoTCClient dId sId ct k ll).isConnected = false) ∧
    (∀ st o, st.connected = false →
       (((IoTCClient.connect st o).2.1 = ConnectOutcome.ok) →
          (IoTCClient.connect st o).1.isConnected = true) ∧
       (((IoTCClient.connect st o).2.1 ≠ ConnectOutcome.ok) →
          (IoTCClient.connect st o).1.isConnected = false)) := by
  refine ⟨fun _ _ _ _ _ => rfl, fun st o hc => ⟨fun h => ?_, fun h => ?_⟩⟩
  · have hcc := (connect_connected_cases st o).1 h
    simp [IoTCClient.isConnected, hcc]
  · have hcc := (connect_connected_cases st o).2 h
    simp [IoTCClient.isConnected, hcc, hc]

/-- A device-key client used in the concrete instantiations. -/
def devClient : IoTCClient :=
  mkIoTCClient "device1" "scope0" IOTCConnectType.IOTC_CONNECT_DEVICE_KEY (KeyOrCert.key "dk0") none

/-- An oracle on which every external call succeeds. -/
def oAllOk : ConnectOracle :=
  { registerResult := .ok "hub.azure-devices.net", hubClientResult := .ok (), hubConnectResult := .ok () }

/-- An oracle on which the provisioning registration fails. -/
def oProvFail : ConnectOracle :=
  { registerResult := .exn "ProvisioningFailed", hubClientResult := .ok (), hubConnectResult := .ok () }

/-- C3 witness: the contract at a concrete client, with one succeeding
and one provisioning-failing oracle. -/
theorem isConnected_connect_contract_witness :
    (mkIoTCClient "device1" "scope0" IOTCConnectType.IOTC_CONNECT_DEVICE_KEY
      (KeyOrCert.key "dk0") none).isConnected = false ∧
    (IoTCClient.connect devClient oAllOk).1.isConnected = true ∧
    (IoTCClient.connect devClient oProvFail).1.isConnected = false := by
  refine ⟨isConnected_connect_contract.1 "device1" "scope0" _ _ none, ?_, ?_⟩
  · exact (isConnected_connect_contract.2 devClient oAllOk rfl).1 rfl
  · exact (isConnected_connect_contract.2 devClient oProvFail rfl).2 (by decide)

/-! ## C7: behaviour on a broken base64 group key -/

/-- C7 (amended): when the stored symmetric-key credential is not
decodable base64, the derivation inside `connect` logs and terminates the
process via `sys.exit()`: `connect` performs no provisioning attempt, the
state (including the connected flag and the stored credential) is
unchanged, and no `InvalidCredentialFormat` exception object is raised to
the caller — the connect attempt is aborted by process termination, and
is not retried. -/
theorem derive_invalid_base64_exits (st : IoTCClient) (o : ConnectOracle) (gk : String)
    (h1 : st.credType = IOTCConnectType.IOTC_CONNECT_SYMM_KEY)
    (h2 : st.keyORCert = KeyOrCert.key gk)
    (h3 : b64decode gk = none) :
    IoTCClient.computeDerivedSymmetricKey gk st.deviceId = DeriveResult.sysExit ∧
    IoTCClient.connect st o =
      (st, ConnectOutcome.exited, [ConnEvent.logDebug "ERROR: broken base64 secret"]) := by
  have hd : IoTCClient.computeDerivedSymmetricKey gk st.deviceId = DeriveResult.sysExit := by
    unfold IoTCClient.computeDerivedSymmetricKey
    rw [h3]
  exact ⟨hd, connect_eq_symm_exit st o gk h1 h2 hd⟩

/-- A client whose group key `"a"` is rejected by the base64 decoder
(one data character cannot be one more than a multiple of four). -/
def badKeyClient : IoTCClient :=
  mkIoTCClient "device1" "scope0" IOTCConnectType.IOTC_CONNECT_SYMM_KEY (KeyOrCert.key "a") none

/-- C7 counterexample: on the undecodable group key `"a"`, the derivation
ends in `sys.exit()` — `connect` terminates the process rather than
delivering an `InvalidCredentialFormat` (or any) exception to the caller;
the trace shows no provisioning attempt and the client is left
unconnected. -/
theorem derive_invalid_base64_cex :
    IoTCClient.computeDerivedSymmetricKey "a" "device1" = DeriveResult.sysExit ∧
    IoTCClient.connect badKeyClient oAllOk =
      (badKeyClient, ConnectOutcome.exited, [ConnEvent.logDebug "ERROR: broken base64 secret"]) ∧
    (IoTCClient.connect badKeyClient oAllOk).1.isConnected = false ∧
    ConnectOutcome.exited ≠ ConnectOutcome.raised "InvalidCredentialFormat" :=
  ⟨rfl, rfl, rfl, by decide⟩

/-- C7 witness for the amended claim, at the concrete broken key. -/
theorem derive_invalid_base64_exits_witness :
    IoTCClient.computeDerivedSymmetricKey "a" badKeyClient.deviceId = DeriveResult.sysExit ∧
    IoTCClient.connect badKeyClient oAllOk =
      (badKeyClient, ConnectOutcome.exited, [ConnEvent.logDebug "ERROR: broken base64 secret"]) :=
  derive_invalid_base64_exits badKeyClient oAllOk "a" rfl rfl rfl

/-! ## C9: connect overwrites the symmetric-key credential -/

/-- C9: on a symmetric-key client, `connect` replaces the stored group key
with the derived device key before provisioning (the group key is not
preserved), provisioning uses the derived key; a second `connect` on the
resulting client therefore derives from the already-derived key and
provisions with the doubly-derived key — which, at the concrete test
identity, differs from the key the first call produced. -/
theorem connect_overwrites_symmetric_key (st : IoTCClient) (o o2 : ConnectOracle) (gk dk : String)
    (h1 : st.credType = IOTCConnectType.IOTC_CONNECT_SYMM_KEY)
    (h2 : st.keyORCert = KeyOrCert.key gk)
    (h3 : IoTCClient.computeDerivedSymmetricKey gk st.deviceId = DeriveResult.ok dk) :
    (IoTCClient.connect st o).1.keyORCert = KeyOrCert.key dk ∧
    ConnEvent.provisionInit st.globalEndpoint st.deviceId st.scopeId dk ∈
      (IoTCClient.connect st o).2.2 ∧
    (∀ dk2, IoTCClient.computeDerivedSymmetricKey dk st.deviceId = DeriveResult.ok dk2 →
       (IoTCClient.connect (IoTCClient.connect st o).1 o2).1.keyORCert = KeyOrCert.key dk2 ∧
       ConnEvent.provisionInit st.globalEndpoint st.deviceId st.scopeId dk2 ∈
         (IoTCClient.connect (IoTCClient.connect st o).1 o2).2.2) ∧
    IoTCClient.computeDerivedSymmetricKey "jSzra7a8b0T6gP4JDzf5tj+kxTQIm1pjlG4jO5cQ1zA=" "device1" ≠
      DeriveResult.ok "jSzra7a8b0T6gP4JDzf5tj+kxTQIm1pjlG4jO5cQ1zA=" := by
  obtain ⟨hkey, hmem⟩ := connect_symm_spec st o gk dk h1 h2 h3
  have hfr := connect_frame st o
  refine ⟨hkey, hmem, ?_, ?_⟩
  · intro dk2 h4
    have h4' : IoTCClient.computeDerivedSymmetricKey dk (IoTCClient.connect st o).1.deviceId =
        DeriveResult.ok dk2 := by
      rw [hfr.1]
      exact h4
    obtain ⟨hkey2, hmem2⟩ := connect_symm_spec (IoTCClient.connect st o).1 o2 dk dk2
      (hfr.2.2.1.trans h1) hkey h4'
    refine ⟨hkey2, ?_⟩
    rw [hfr.2.2.2, hfr.1, hfr.2.1] at hmem2
    exact hmem2
  · decide

/-- A symmetric-key client with the concrete group key `"c2VjcmV0"`. -/
def symClient : IoTCClient :=
  mkIoTCClient "device1" "scope0" IOTCConnectType.IOTC_CONNECT_SYMM_KEY
    (KeyOrCert.key "c2VjcmV0") none

/-- C9 witness: the overwrite at the concrete client. -/
theorem connect_overwrites_symmetric_key_witness :
    (IoTCClient.connect symClient oAllOk).1.keyORCert =
      KeyOrCert.key "jSzra7a8b0T6gP4JDzf5tj+kxTQIm1pjlG4jO5cQ1zA=" ∧
    ConnEvent.provisionInit symClient.globalEndpoint symClient.deviceId symClient.scopeId
      "jSzra7a8b0T6gP4JDzf5tj+kxTQIm1pjlG4jO5cQ1zA=" ∈ (IoTCClient.connect symClient oAllOk).2.2 ∧
    (∀ dk2, IoTCClient.computeDerivedSymmetricKey "jSzra7a8b0T6gP4JDzf5tj+kxTQIm1pjlG4jO5cQ1zA="
        symClient.deviceId = DeriveResult.ok dk2 →
       (IoTCClient.connect (IoTCClient.connect symClient oAllOk).1 oAllOk).1.keyORCert =
         KeyOrCert.key dk2 ∧
       ConnEvent.provisionInit symClient.globalEndpoint symClient.deviceId symClient.scopeId dk2 ∈
         (IoTCClient.connect (IoTCClient.connect symClient oAllOk).1 oAllOk).2.2) ∧
    IoTCClient.computeDerivedSymmetricKey "jSzra7a8b0T6gP4JDzf5tj+kxTQIm1pjlG4jO5cQ1zA=" "device1" ≠
      DeriveResult.ok "jSzra7a8b0T6gP4JDzf5tj+kxTQIm1pjlG4jO5cQ1zA=" :=
  connect_overwrites_symmetric_key symClient oAllOk oAllOk "c2VjcmV0"
    "jSzra7a8b0T6gP4JDzf5tj+kxTQIm1pjlG4jO5cQ1zA=" rfl rfl (by rfl)

/-! ## C10: monotonicity of the connected flag -/

/-- `connect` preserves a true connected flag. -/
lemma connect_connected_monotone (st : IoTCClient) (o : ConnectOracle) (h : st.connected = true) :
    (IoTCClient.connect st o).1.connected = true := by
  by_cases hc : (IoTCClient.connect st o).2.1 = ConnectOutcome.ok
  · exact (connect_connected_cases st o).1 hc
  · rw [(connect_connected_cases st o).2 hc]
    exact h

/-- A true connected flag after `connect` comes from a previously true
flag or from a normal return. -/
lemma connect_connected_reverse (st : IoTCClient) (o : ConnectOracle)
    (h : (IoTCClient.connect st o).1.connected = true) :
    st.connected = true ∨ (IoTCClient.connect st o).2.1 = ConnectOutcome.ok := by
  by_cases hc : (IoTCClient.connect st o).2.1 = ConnectOutcome.ok
  · exact Or.inr hc
  · rw [(connect_connected_cases st o).2 hc] at h
    exact Or.inl h

/-- C10: the connected flag is false at construction, monotone under
every modelled operation (public methods, sends, listener-loop
iterations, further `connect` calls), and becomes true only through a
`connect` whose external calls all succeeded. -/
theorem connected_flag_monotone :
    (∀ dId sId ct k ll, (mkIoTCClient dId sId ct k ll).connected = false) ∧
    (∀ st op, st.connected = true → (applyOp st op).connected = true) ∧
    (∀ st op, (applyOp st op).connected = true →
       st.connected = true ∨
         ∃ o, op = ClientOp.connectOp o ∧ (IoTCClient.connect st o).2.1 = ConnectOutcome.ok) := by
  refine ⟨fun _ _ _ _ _ => rfl, ?_, ?_⟩
  · intro st op h
    cases op
    case connectOp o => exact connect_connected_monotone st o h
    all_goals simpa [applyOp] using h
  · intro st op h
    cases op
    case connectOp o =>
      rcases connect_connected_reverse st o h with h' | h'
      · exact Or.inl h'
      · exact Or.inr ⟨o, rfl, h'⟩
    all_goals exact Or.inl (by simpa [applyOp] using h)

/-- A device-key client already connected. -/
def connClient : IoTCClient := { devClient with connected := true }

/-- C10 witness: construction yields false; a listener iteration and a
property send on a connected client leave the flag true. -/
theorem connected_flag_monotone_witness :
    (mkIoTCClient "device1" "scope0" IOTCConnectType.IOTC_CONNECT_DEVICE_KEY
      (KeyOrCert.key "dk0") none).connected = false ∧
    (applyOp connClient (ClientOp.propListenerIter (RecvEvent.patch demoPatch))).connected = true ∧
    (applyOp connClient (ClientOp.sendPropertyOp demoPatch)).connected = true :=
  ⟨connected_flag_monotone.1 "device1" "scope0" _ _ none,
   connected_flag_monotone.2.1 connClient _ rfl,
   connected_flag_monotone.2.1 connClient _ rfl⟩
